import Mathlib

/-!
Verification of `backend/healthdata.py` (nexus-lite): field validators for
health-data submissions, the bearer-token authentication resolver, and the
two route handlers (submit and list) over the persisted record store.

Numbers: the Python code uses `float` for weight and glucose; the embedding
uses exact rationals `ℚ`, and Python `round(x, 2)` is modelled as
round-half-to-even on the exact rational value scaled by 100.
Strings: Python `str` is a sequence of characters; the embedding uses
`String` / `List Char`, and the `\d` regex class is modelled as the ASCII
digits `0`-`9`.
-/

/-- The set of characters Python `str.split()` (no argument) treats as
separators, restricted to ASCII: space, tab, newline, carriage return,
vertical tab, form feed. -/
def isPySpace (c : Char) : Bool :=
  c = ' ' || c = '\t' || c = '\n' || c = '\r' || c = '\x0b' || c = '\x0c'

/-- `v.replace(' ', '')` from `validate_blood_pressure` (line 37): removes
exactly the ASCII space character, nothing else. -/
def stripSpaces (s : String) : String :=
  ⟨s.data.filter (fun c => c != ' ')⟩

/-- Numeric value of a list of ASCII digits, as `int()` computes it. -/
def digitsToNat (cs : List Char) : Nat :=
  cs.foldl (fun n c => 10 * n + (c.toNat - 48)) 0

/-- The match `re.match(r'^\d{2,3}/\d{2,3}$', v)` from line 38, together
with the extraction `map(int, v.split('/'))` from line 40, as one parser.
Python `re.match` anchors at the start, and the `$` anchor matches at the
end of the string or just before a single trailing newline; `int()` on the
second part ignores that trailing newline.  Greedy matching of `\d{2,3}`
against a maximal digit run is equivalent to the regex with backtracking
because a digit can match neither `/` nor the end anchor. -/
def bpParse (cs : List Char) : Option (Nat × Nat) :=
  let d1 := cs.takeWhile Char.isDigit
  let r1 := cs.dropWhile Char.isDigit
  if 2 ≤ d1.length ∧ d1.length ≤ 3 then
    match r1 with
    | c :: rest =>
      if c = '/' then
        let d2 := rest.takeWhile Char.isDigit
        let r2 := rest.dropWhile Char.isDigit
        if (2 ≤ d2.length ∧ d2.length ≤ 3) ∧ (r2 = [] ∨ r2 = ['\n']) then
          some (digitsToNat d1, digitsToNat d2)
        else none
      else none
    | [] => none
  else none

/-- Rounding of a rational to the nearest integer with ties going to the
even integer, as Python `round` rounds. -/
def pyRoundHalfEven (x : ℚ) : ℤ :=
  if x - Rat.floor x < 1 / 2 then Rat.floor x
  else if (1 : ℚ) / 2 < x - Rat.floor x then Rat.floor x + 1
  else if Rat.floor x % 2 = 0 then Rat.floor x else Rat.floor x + 1

/-- Python `round(x, 2)`: rounding to two fraction digits with ties going
to the even hundredth (banker's rounding), taken on the exact rational. -/
def pyRound2 (q : ℚ) : ℚ :=
  (pyRoundHalfEven (q * 100) : ℚ) / 100

/-- `validate_weight` (lines 20-25). -/
def validate_weight (v : ℚ) : Except String ℚ :=
  if v ≤ 0 then .error "Weight must be a positive number"
  else .ok (pyRound2 v)

/-- `validate_glucose` (lines 27-32). -/
def validate_glucose (v : ℚ) : Except String ℚ :=
  if v ≤ 0 then .error "Glucose level must be a positive number"
  else .ok (pyRound2 v)

/-- The format error message raised at line 39. -/
def bpFormatMsg : String :=
  "Blood pressure must be in format \"systolic/diastolic\" (e.g., 120/80)"

/-- `validate_blood_pressure` (lines 34-45): remove spaces, match the
pattern, parse the two integers, range-check, and retain the space-stripped
string. -/
def validate_blood_pressure (v0 : String) : Except String String :=
  let v := stripSpaces v0
  match bpParse v.data with
  | none => .error bpFormatMsg
  | some (systolic, diastolic) =>
    if systolic < 70 ∨ systolic > 250 then
      .error "Systolic pressure must be between 70 and 250"
    else if diastolic < 40 ∨ diastolic > 150 then
      .error "Diastolic pressure must be between 40 and 150"
    else .ok v

example : validate_blood_pressure "1 20/ 80" = .ok "120/80" := rfl
example : validate_blood_pressure "120-80" = .error bpFormatMsg := rfl
example : validate_blood_pressure "120/80\n" = .ok "120/80\n" := rfl
example : validate_blood_pressure "120/80\t" = .error bpFormatMsg := rfl
example : validate_blood_pressure "60/80" =
    .error "Systolic pressure must be between 70 and 250" := rfl
example : validate_blood_pressure "120/30" =
    .error "Diastolic pressure must be between 40 and 150" := rfl
deriving instance DecidableEq for Except

/-- `Rat.floor` agrees with the floor of the `FloorRing` structure on `ℚ`. -/
theorem rat_floor_eq_floor (q : ℚ) : (Rat.floor q : ℤ) = ⌊q⌋ := by
  rw [Rat.floor_def', Rat.floor_def]

/-- Half-even rounding fixes the integers. -/
theorem pyRoundHalfEven_intCast (m : ℤ) : pyRoundHalfEven (m : ℚ) = m := by
  unfold pyRoundHalfEven
  rw [rat_floor_eq_floor, Int.floor_intCast, if_pos]
  norm_num

/-- `pyRound2` fixes the integers. -/
theorem pyRound2_intCast (n : ℤ) : pyRound2 (n : ℚ) = (n : ℚ) := by
  unfold pyRound2
  have h : (n : ℚ) * 100 = ((n * 100 : ℤ) : ℚ) := by push_cast; ring
  rw [h, pyRoundHalfEven_intCast]
  push_cast
  ring

example : validate_weight 3 = .ok 3 := by
  have h3 : ((3 : ℤ) : ℚ) = (3 : ℚ) := by norm_num
  simp only [validate_weight]
  rw [if_neg (by norm_num)]
  rw [show pyRound2 3 = 3 from h3 ▸ pyRound2_intCast 3]
example : validate_weight (-1) = .error "Weight must be a positive number" := by
  simp only [validate_weight]
  rw [if_pos (by norm_num)]

/-- Python `str.split()` with no argument: split on maximal runs of
whitespace, discarding empty pieces.  Accumulator-based scan over the
characters; `acc` holds the current word reversed. -/
def splitWsAux : List Char → List Char → List (List Char)
  | [], acc => if acc = [] then [] else [acc.reverse]
  | c :: cs, acc =>
    if isPySpace c then
      if acc = [] then splitWsAux cs [] else acc.reverse :: splitWsAux cs []
    else splitWsAux cs (c :: acc)

/-- `authorization.split()` from `get_current_user` (line 59). -/
def pySplit (s : String) : List String :=
  (splitWsAux s.data []).map (fun cs => String.mk cs)

/-- `parts[0].lower()` from line 60, on the ASCII range. -/
def pyLower (s : String) : String :=
  ⟨s.data.map Char.toLower⟩

/-- Modelled from the spec: the claim set returned by the token codec
(`decode_access_token` in `backend/utils.py`, a file not under `src/`).
The only claim the handler reads is `payload.get("sub")`; a missing `sub`
key is `none`.  A decoder returns `none` for the failure signal (and for a
falsy empty claim set, which line 65 treats the same way). -/
structure TokenPayload where
  sub : Option Nat
deriving DecidableEq, Repr

/-- Modelled from the spec: the `User` entity of `backend/models.py` (not
under `src/`), reduced to the only field this service reads — its id,
the foreign-key target and bearer-token subject. -/
structure User where
  id : Nat
deriving DecidableEq, Repr

/-- An HTTP error: status code and detail string, as carried by
`HTTPException`. -/
abbrev HttpError := Nat × String

/-- `get_current_user` (lines 54-73).  The user directory
(`db.query(User).filter(User.id == user_id).first()`) is modelled from the
spec as a first-match lookup in a list of users; the token codec is an
explicit parameter.  Python `if not authorization` is true for a missing
header and for an empty-string header alike. -/
def get_current_user (authorization : Option String)
    (decode : String → Option TokenPayload) (db : List User) :
    Except HttpError User :=
  match authorization with
  | none => .error (401, "Token missing")
  | some s =>
    if s = "" then .error (401, "Token missing")
    else
      match pySplit s with
      | [p0, p1] =>
        if pyLower p0 = "bearer" then
          match decode p1 with
          | none => .error (401, "Invalid or expired token")
          | some payload =>
            match db.find? (fun u => payload.sub == some u.id) with
            | none => .error (401, "User not found")
            | some u => .ok u
        else .error (401, "Invalid authorization header")
      | _ => .error (401, "Invalid authorization header")

/-- Modelled from the spec: the `HealthData` row of `backend/models.py`
(not under `src/`): server-assigned id, owning patient reference, and the
three measurement fields.  The server-assigned timestamp is omitted; no
claim mentions its value. -/
structure HealthData where
  id : Nat
  patient_id : Nat
  weight : ℚ
  bp : String
  glucose : ℚ
deriving DecidableEq, Repr

/-- Modelled from the spec: the persistence layer (`backend/database.py`,
not under `src/`), as the list of persisted rows in storage-native order
plus the id counter from which the store assigns fresh ids. -/
structure Store where
  records : List HealthData
  nextId : Nat
deriving DecidableEq, Repr

/-- The validated `HealthDataRequest` model (lines 15-18): field values
after the three field validators have replaced them. -/
structure HealthDataRequest where
  weight : ℚ
  bp : String
  glucose : ℚ
deriving DecidableEq, Repr

/-- Validation of a raw `{weight, bp, glucose}` body into a
`HealthDataRequest`, running the three field validators of lines 20-45.
Pydantic validates the fields independently and aggregates their errors;
the model returns the first error, which does not affect whether
validation succeeds.  -/
def validateRequest (weight : ℚ) (bp : String) (glucose : ℚ) :
    Except String HealthDataRequest :=
  match validate_weight weight, validate_blood_pressure bp,
      validate_glucose glucose with
  | .ok w, .ok b, .ok g => .ok ⟨w, b, g⟩
  | .error e, _, _ => .error e
  | _, .error e, _ => .error e
  | _, _, .error e => .error e

/-- The body returned by `log_health_data` (line 90). -/
structure LogResponse where
  message : String
  data_id : Nat
deriving DecidableEq, Repr

/-- `log_health_data` (lines 75-90): build the new row owned by the
current user, insert it (`db.add` + `db.commit`), read back the assigned
id (`db.refresh`), and return the confirmation body. -/
def log_health_data (data : HealthDataRequest) (current_user : User)
    (db : Store) : LogResponse × Store :=
  let new_entry : HealthData :=
    { id := db.nextId
      patient_id := current_user.id
      weight := data.weight
      bp := data.bp
      glucose := data.glucose }
  (⟨"Health data recorded", new_entry.id⟩,
    ⟨db.records ++ [new_entry], db.nextId + 1⟩)

/-- `get_health_data` (lines 92-98): query the rows whose `patient_id`
equals the current user's id; the store is left as it was. -/
def get_health_data (current_user : User) (db : Store) :
    List HealthData × Store :=
  (db.records.filter (fun r => r.patient_id == current_user.id), db)

/-- The `POST /healthdata/` route as a whole: the framework validates the
body into a `HealthDataRequest` before the handler runs; a validation
error is returned without touching the store. -/
def post_health_data (weight : ℚ) (bp : String) (glucose : ℚ)
    (current_user : User) (db : Store) :
    Except String LogResponse × Store :=
  match validateRequest weight bp glucose with
  | .error e => (.error e, db)
  | .ok data =>
    let r := log_health_data data current_user db
    (.ok r.1, r.2)

/-- Removal of every whitespace character, following the words of the
spec sentence that the bp validator "strips whitespace"; to be compared
with `stripSpaces`, the removal the source performs. -/
def stripAllWhitespace (s : String) : String :=
  ⟨s.data.filter (fun c => !(isPySpace c))⟩

/-- A matcher for the exact pattern `<2-3 digits>/<2-3 digits>` and
nothing else, following the words of the spec; to be compared with
`bpParse`, which follows the Python anchor semantics and so also accepts
one trailing newline. -/
def bpExactMatch (s : String) : Bool :=
  let cs := s.data
  let d1 := cs.takeWhile Char.isDigit
  let r1 := cs.dropWhile Char.isDigit
  match r1 with
  | '/' :: rest =>
    let d2 := rest.takeWhile Char.isDigit
    let r2 := rest.dropWhile Char.isDigit
    decide (2 ≤ d1.length) && decide (d1.length ≤ 3) &&
      decide (2 ≤ d2.length) && decide (d2.length ≤ 3) && decide (r2 = [])
  | _ => false

/-- A decoder that rejects every token; used to exercise the resolver
branches that never reach the codec. -/
def decodeNone : String → Option TokenPayload := fun _ => none

/-- Claim C1: for every resolved user, the list operation returns exactly
the persisted records whose patient reference equals that user's id, and
leaves the store unchanged. -/
theorem C1_list_returns_exactly_own_records (u : User) (db : Store) :
    (∀ r : HealthData,
      r ∈ (get_health_data u db).1 ↔ r ∈ db.records ∧ r.patient_id = u.id)
    ∧ (get_health_data u db).2 = db := by
  refine ⟨fun r => ?_, rfl⟩
  simp [get_health_data, List.mem_filter]

/-- Claim C8: the submit operation appends exactly one new record to the
store, that record's patient reference is the resolved user's id, its
measurement fields are the validated payload's, and the confirmation
carries the new record's id as `data_id`. -/
theorem C8_submit_appends_one_owned_record (data : HealthDataRequest)
    (u : User) (db : Store) :
    ∃ newRec : HealthData,
      (log_health_data data u db).2.records = db.records ++ [newRec]
      ∧ newRec.patient_id = u.id
      ∧ newRec.weight = data.weight ∧ newRec.bp = data.bp
      ∧ newRec.glucose = data.glucose
      ∧ (log_health_data data u db).1 =
          ⟨"Health data recorded", newRec.id⟩ :=
  ⟨_, rfl, rfl, rfl, rfl, rfl, rfl⟩

/-- Claim C2: submitting a valid payload as user `u` and then listing as
`u` returns a record whose fields equal the validated payload, and listing
as a user with a different id does not return that record. -/
theorem C2_submit_list_round_trip (w : ℚ) (bp : String) (g : ℚ)
    (data : HealthDataRequest) (u v : User) (db : Store)
    (hval : validateRequest w bp g = .ok data) (huv : u.id ≠ v.id) :
    ∃ r : HealthData,
      r ∈ (get_health_data u (log_health_data data u db).2).1
      ∧ r.weight = data.weight ∧ r.bp = data.bp ∧ r.glucose = data.glucose
      ∧ r ∉ (get_health_data v (log_health_data data u db).2).1 := by
  refine ⟨⟨db.nextId, u.id, data.weight, data.bp, data.glucose⟩,
    ?_, rfl, rfl, rfl, ?_⟩
  · simp [get_health_data, log_health_data, List.mem_filter]
  · intro hmem
    simp [get_health_data, log_health_data, List.mem_filter] at hmem
    rcases hmem with ⟨-, hid⟩ | hid <;> exact huv hid

/-- Claim C9: the three field checks are independent — validation of the
whole request succeeds exactly when each field's own check succeeds — and
on any validation failure the `POST` route leaves the store unchanged. -/
theorem C9_field_checks_independent_and_no_insert_on_failure
    (w : ℚ) (bp : String) (g : ℚ) (u : User) (db : Store) :
    ((∃ data, validateRequest w bp g = .ok data) ↔
      (∃ x, validate_weight w = .ok x)
      ∧ (∃ y, validate_blood_pressure bp = .ok y)
      ∧ (∃ z, validate_glucose g = .ok z))
    ∧ (∀ e, validateRequest w bp g = .error e →
        post_health_data w bp g u db = (.error e, db)) := by
  constructor
  · cases hw : validate_weight w <;>
      cases hb : validate_blood_pressure bp <;>
        cases hg : validate_glucose g <;>
          simp [validateRequest, hw, hb, hg]
  · intro e he
    simp [post_health_data, he]

/-- A positive weight passes the check and is rounded. -/
theorem validate_weight_pos (v : ℚ) (h : 0 < v) :
    validate_weight v = .ok (pyRound2 v) := by
  unfold validate_weight
  rw [if_neg (not_le.mpr h)]

/-- A positive glucose passes the check and is rounded. -/
theorem validate_glucose_pos (v : ℚ) (h : 0 < v) :
    validate_glucose v = .ok (pyRound2 v) := by
  unfold validate_glucose
  rw [if_neg (not_le.mpr h)]

/-- `pyRound2` fixes the naturals. -/
theorem pyRound2_natCast (n : ℕ) : pyRound2 (n : ℚ) = (n : ℚ) := by
  have h : ((n : ℤ) : ℚ) = (n : ℚ) := by push_cast; ring
  exact h ▸ pyRound2_intCast (n : ℤ)

/-- Claim C3 as written is false on the code: the spec sentence reads as
removing all whitespace and matching the exact two-to-three-digit pattern,
under which `"120/80\t"` (whose whitespace-free form `"120/80"` matches
exactly) would be accepted, yet the code removes only spaces and rejects
it with the format error. -/
theorem C3_counterexample :
    stripAllWhitespace "120/80\t" = "120/80"
    ∧ bpExactMatch "120/80" = true
    ∧ validate_blood_pressure "120/80\t" = .error bpFormatMsg :=
  ⟨rfl, rfl, rfl⟩

/-- Claim C3 amended: the bp validator removes only ASCII spaces and
fails with the format `ValidationError` exactly when the space-stripped
result does not match `^\d{2,3}/\d{2,3}$` under Python anchor semantics
(`$` also tolerating one trailing newline); `"120-80"` fails and
`"1 20/ 80"` is accepted and normalized to `"120/80"`. -/
theorem C3_amended_bp_format_gate :
    (∀ s : String, validate_blood_pressure s = .error bpFormatMsg ↔
      bpParse (stripSpaces s).data = none)
    ∧ validate_blood_pressure "120-80" = .error bpFormatMsg
    ∧ validate_blood_pressure "1 20/ 80" = .ok "120/80" := by
  refine ⟨fun s => ?_, rfl, rfl⟩
  unfold validate_blood_pressure
  cases h : bpParse (stripSpaces s).data with
  | none => simp [h]
  | some p =>
    obtain ⟨sys, dia⟩ := p
    simp only [h]
    constructor
    · intro hres
      split_ifs at hres <;> simp_all [bpFormatMsg]
    · intro hnone
      exact absurd hnone (by simp)

/-- Claim C4: for a bp string whose space-stripped form matches the
pattern, validation fails when systolic is outside `[70, 250]` or
diastolic is outside `[40, 150]`, and otherwise retains the space-stripped
`systolic/diastolic` string, which contains no space. -/
theorem C4_bp_range_check (s : String) (sys dia : Nat)
    (h : bpParse (stripSpaces s).data = some (sys, dia)) :
    ((sys < 70 ∨ sys > 250 ∨ dia < 40 ∨ dia > 150) →
      ∃ e, validate_blood_pressure s = .error e)
    ∧ (70 ≤ sys → sys ≤ 250 → 40 ≤ dia → dia ≤ 150 →
      validate_blood_pressure s = .ok (stripSpaces s)
      ∧ ' ' ∉ (stripSpaces s).data) := by
  constructor
  · intro hout
    unfold validate_blood_pressure
    simp only [h]
    by_cases h1 : sys < 70 ∨ sys > 250
    · rw [if_pos h1]
      exact ⟨_, rfl⟩
    · rw [if_neg h1, if_pos (by omega)]
      exact ⟨_, rfl⟩
  · intro hs1 hs2 hd1 hd2
    unfold validate_blood_pressure
    simp only [h]
    rw [if_neg (by omega), if_neg (by omega)]
    exact ⟨rfl, by simp [stripSpaces, List.mem_filter]⟩

/-- Witness for C4 at the spec's own example `"1 20/ 80"`. -/
theorem C4_bp_range_check_witness :
    bpParse (stripSpaces "1 20/ 80").data = some (120, 80)
    ∧ validate_blood_pressure "1 20/ 80" = .ok (stripSpaces "1 20/ 80")
    ∧ ' ' ∉ (stripSpaces "1 20/ 80").data := by
  have h := (C4_bp_range_check "1 20/ 80" 120 80 rfl).2
    (by decide) (by decide) (by decide) (by decide)
  exact ⟨rfl, h.1, h.2⟩

/-- Claim C5: a nonpositive weight or glucose fails with the field's
`ValidationError`, and a positive one is accepted with value the input
rounded to two decimal places. -/
theorem C5_weight_glucose_sign_and_rounding (w g : ℚ) :
    (w ≤ 0 → validate_weight w = .error "Weight must be a positive number")
    ∧ (g ≤ 0 →
        validate_glucose g = .error "Glucose level must be a positive number")
    ∧ (0 < w → validate_weight w = .ok (pyRound2 w))
    ∧ (0 < g → validate_glucose g = .ok (pyRound2 g)) := by
  refine ⟨fun h => ?_, fun h => ?_,
    fun h => validate_weight_pos w h, fun h => validate_glucose_pos g h⟩
  · unfold validate_weight
    rw [if_pos h]
  · unfold validate_glucose
    rw [if_pos h]

/-- Witness for C5 at weight `-2`, glucose `-3`, and the positive pair
`70`, `90`. -/
theorem C5_weight_glucose_witness :
    ((-2 : ℚ) ≤ 0 ∧ (-3 : ℚ) ≤ 0 ∧ (0 : ℚ) < 70 ∧ (0 : ℚ) < 90)
    ∧ validate_weight (-2) = .error "Weight must be a positive number"
    ∧ validate_glucose (-3) = .error "Glucose level must be a positive number"
    ∧ validate_weight 70 = .ok (pyRound2 70)
    ∧ validate_glucose 90 = .ok (pyRound2 90) :=
  ⟨⟨by norm_num, by norm_num, by norm_num, by norm_num⟩,
    (C5_weight_glucose_sign_and_rounding (-2) (-3)).1 (by norm_num),
    (C5_weight_glucose_sign_and_rounding (-2) (-3)).2.1 (by norm_num),
    (C5_weight_glucose_sign_and_rounding 70 90).2.2.1 (by norm_num),
    (C5_weight_glucose_sign_and_rounding 70 90).2.2.2 (by norm_num)⟩

/-- Claim C6 as written is false on the code: an empty-string
`Authorization` header is present and does not split into two parts, so
the claim prescribes 401 "Invalid authorization header", but
`if not authorization` is true for the empty string and the code answers
401 "Token missing". -/
theorem C6_counterexample :
    (pySplit "").length ≠ 2
    ∧ get_current_user (some "") decodeNone [] = .error (401, "Token missing")
    ∧ ((401, "Token missing") : HttpError) ≠
        (401, "Invalid authorization header") :=
  ⟨by decide, rfl, by decide⟩

/-- Claim C6 amended: a missing or empty-string `Authorization` header
fails with 401 "Token missing"; a nonempty header that does not split into
exactly two whitespace-separated parts with the first case-insensitively
"Bearer" fails with 401 "Invalid authorization header". -/
theorem C6_amended_auth_header_errors
    (d : String → Option TokenPayload) (db : List User) (s : String) :
    get_current_user none d db = .error (401, "Token missing")
    ∧ get_current_user (some "") d db = .error (401, "Token missing")
    ∧ (s ≠ "" → (∀ p t, pySplit s = [p, t] → pyLower p ≠ "bearer") →
        get_current_user (some s) d db =
          .error (401, "Invalid authorization header")) := by
  refine ⟨rfl, rfl, fun hne hparts => ?_⟩
  cases hsp : pySplit s with
  | nil => simp [get_current_user, hne, hsp]
  | cons p rest =>
    cases rest with
    | nil => simp [get_current_user, hne, hsp]
    | cons t rest2 =>
      cases rest2 with
      | nil => simp [get_current_user, hne, hsp, hparts p t hsp]
      | cons r rest3 => simp [get_current_user, hne, hsp]

/-- Witness for C6 at the spec's own example: the one-part header
`"Bearer"` alone. -/
theorem C6_amended_auth_header_errors_witness :
    ("Bearer" : String) ≠ ""
    ∧ get_current_user (some "Bearer") decodeNone [] =
        .error (401, "Invalid authorization header") := by
  refine ⟨by decide,
    (C6_amended_auth_header_errors decodeNone [] "Bearer").2.2 (by decide) ?_⟩
  intro p t h
  rw [show pySplit "Bearer" = ["Bearer"] from rfl] at h
  simp at h

/-- Claim C7: with a well-formed `Bearer` header, a failed decode gives
401 "Invalid or expired token"; a decoded subject matching no stored user
gives 401 "User not found"; otherwise the resolver returns exactly the
user whose id equals the token's subject claim (ids being unique). -/
theorem C7_token_decode_and_user_lookup
    (d : String → Option TokenPayload) (db : List User) (s p0 p1 : String)
    (hsplit : pySplit s = [p0, p1]) (hbearer : pyLower p0 = "bearer") :
    (d p1 = none →
      get_current_user (some s) d db = .error (401, "Invalid or expired token"))
    ∧ (∀ payload, d p1 = some payload →
        ((∀ u, u ∈ db → some u.id ≠ payload.sub) →
          get_current_user (some s) d db = .error (401, "User not found"))
        ∧ (∀ u, u ∈ db → some u.id = payload.sub → (db.map User.id).Nodup →
            get_current_user (some s) d db = .ok u)) := by
  have hne : s ≠ "" := by
    intro he
    rw [he, show pySplit "" = [] from rfl] at hsplit
    exact List.noConfusion hsplit
  refine ⟨fun hd => ?_,
    fun payload hd => ⟨fun hnone => ?_, fun u hu hid hnd => ?_⟩⟩
  · simp [get_current_user, hne, hsplit, hbearer, hd]
  · have hfind : db.find? (fun x => payload.sub == some x.id) = none := by
      rw [List.find?_eq_none]
      intro x hx hbeq
      simp only [beq_iff_eq] at hbeq
      exact hnone x hx hbeq.symm
    simp [get_current_user, hne, hsplit, hbearer, hd, hfind]
  · have hfind : db.find? (fun x => payload.sub == some x.id) = some u := by
      cases hf : db.find? (fun x => payload.sub == some x.id) with
      | none =>
        rw [List.find?_eq_none] at hf
        refine absurd ?_ (hf u hu)
        simp only [beq_iff_eq]
        exact hid.symm
      | some w =>
        have hw1 := List.find?_some hf
        have hw2 := List.mem_of_find?_eq_some hf
        simp only [beq_iff_eq, ← hid] at hw1
        have hwu : w = u :=
          List.inj_on_of_nodup_map hnd hw2 hu (Option.some.inj hw1).symm
        rw [hwu]
    simp [get_current_user, hne, hsplit, hbearer, hd, hfind]

/-- A decoder accepting exactly the token `"tok"` with subject 1; used to
exercise the success path of the resolver. -/
def decodeTok : String → Option TokenPayload :=
  fun t => if t = "tok" then some ⟨some 1⟩ else none

/-- Witness for C7: the header `"Bearer tok"` against a directory holding
users 1 and 2 resolves to user 1. -/
theorem C7_token_decode_and_user_lookup_witness :
    pySplit "Bearer tok" = ["Bearer", "tok"]
    ∧ pyLower "Bearer" = "bearer"
    ∧ decodeTok "tok" = some ⟨some 1⟩
    ∧ get_current_user (some "Bearer tok") decodeTok [⟨1⟩, ⟨2⟩] = .ok ⟨1⟩ :=
  ⟨rfl, rfl, rfl,
    ((C7_token_decode_and_user_lookup decodeTok [⟨1⟩, ⟨2⟩]
        "Bearer tok" "Bearer" "tok" rfl rfl).2 ⟨some 1⟩ rfl).2
      ⟨1⟩ (by decide) (by decide) (by decide)⟩

/-- A character string accepted by the bp pattern consists of digits, the
separating slash, and possibly a trailing newline — nothing else; in
particular no tab survives a successful match. -/
theorem bpParse_chars {cs : List Char} {pr : Nat × Nat}
    (h : bpParse cs = some pr) :
    ∀ c ∈ cs, c.isDigit = true ∨ c = '/' ∨ c = '\n' := by
  intro c hc
  simp only [bpParse] at h
  split at h
  · split at h
    · split at h
      · split at h
        · rename_i h1 c0 rest heq hc0 h2
          subst hc0
          have hcs : cs =
              cs.takeWhile Char.isDigit ++ cs.dropWhile Char.isDigit :=
            (List.takeWhile_append_dropWhile _ _).symm
          rw [hcs, heq] at hc
          rcases List.mem_append.mp hc with hmem | hmem
          · exact .inl (List.mem_takeWhile_imp hmem)
          · rcases List.mem_cons.mp hmem with rfl | hmem2
            · exact .inr (.inl rfl)
            · have hrest : rest =
                  rest.takeWhile Char.isDigit ++ rest.dropWhile Char.isDigit :=
                (List.takeWhile_append_dropWhile _ _).symm
              rw [hrest] at hmem2
              rcases List.mem_append.mp hmem2 with hm | hm
              · exact .inl (List.mem_takeWhile_imp hm)
              · rcases h2.2 with hr2 | hr2 <;> rw [hr2] at hm
                · exact absurd hm (List.not_mem_nil c)
                · exact .inr (.inr (List.mem_singleton.mp hm))
        · exact absurd h (by simp)
      · exact absurd h (by simp)
    · exact absurd h (by simp)
  · exact absurd h (by simp)

/-- Claim C10: the bp validator removes only the ASCII space character;
`"120/80\n"` passes the pattern check (the anchor tolerates the trailing
newline) and the retained value still carries that newline, while any
input containing a tab fails with the format `ValidationError`. -/
theorem C10_trailing_newline_kept_tabs_rejected :
    stripSpaces "120/80\n" = "120/80\n"
    ∧ validate_blood_pressure "120/80\n" = .ok "120/80\n"
    ∧ '\n' ∈ ("120/80\n").data
    ∧ (∀ s : String, '\t' ∈ s.data →
        validate_blood_pressure s = .error bpFormatMsg) := by
  refine ⟨rfl, rfl, by decide, fun s hs => ?_⟩
  unfold validate_blood_pressure
  cases h : bpParse (stripSpaces s).data with
  | none => simp [h]
  | some pr =>
    exfalso
    have htab : '\t' ∈ (stripSpaces s).data := by
      simp only [stripSpaces, List.mem_filter]
      exact ⟨hs, by decide⟩
    rcases bpParse_chars h '\t' htab with h1 | h1 | h1 <;>
      exact absurd h1 (by decide)

/-- Witness for C10's universally quantified part at `"120/80\t"`. -/
theorem C10_trailing_newline_kept_tabs_rejected_witness :
    '\t' ∈ ("120/80\t").data
    ∧ validate_blood_pressure "120/80\t" = .error bpFormatMsg :=
  ⟨by decide,
    C10_trailing_newline_kept_tabs_rejected.2.2.2 "120/80\t" (by decide)⟩

/-- Witness for C2: user 1 submits weight 70, bp "120/80", glucose 90;
user 1's listing contains the record and user 2's does not. -/
theorem C2_submit_list_round_trip_witness :
    validateRequest 70 "120/80" 90 = .ok ⟨70, "120/80", 90⟩
    ∧ (1 : Nat) ≠ 2
    ∧ ∃ r : HealthData,
        r ∈ (get_health_data ⟨1⟩
              (log_health_data ⟨70, "120/80", 90⟩ ⟨1⟩ ⟨[], 0⟩).2).1
        ∧ r.weight = (70 : ℚ) ∧ r.bp = "120/80" ∧ r.glucose = (90 : ℚ)
        ∧ r ∉ (get_health_data ⟨2⟩
              (log_health_data ⟨70, "120/80", 90⟩ ⟨1⟩ ⟨[], 0⟩).2).1 := by
  have h70 : pyRound2 70 = 70 := by
    have h := pyRound2_natCast 70
    norm_num at h
    exact h
  have h90 : pyRound2 90 = 90 := by
    have h := pyRound2_natCast 90
    norm_num at h
    exact h
  have hw : validate_weight 70 = .ok 70 := by
    rw [validate_weight_pos 70 (by norm_num), h70]
  have hg : validate_glucose 90 = .ok 90 := by
    rw [validate_glucose_pos 90 (by norm_num), h90]
  have hval : validateRequest 70 "120/80" 90 = .ok ⟨70, "120/80", 90⟩ := by
    unfold validateRequest
    rw [hw, hg, show validate_blood_pressure "120/80" = .ok "120/80" from rfl]
  exact ⟨hval, by decide,
    C2_submit_list_round_trip 70 "120/80" 90 ⟨70, "120/80", 90⟩
      ⟨1⟩ ⟨2⟩ ⟨[], 0⟩ hval (by decide)⟩

/-- Witness for C9: a nonpositive weight makes validation fail and the
`POST` route returns the error leaving the store exactly as it was. -/
theorem C9_no_insert_on_failure_witness :
    validateRequest (-1) "120/80" 90 = .error "Weight must be a positive number"
    ∧ post_health_data (-1) "120/80" 90 ⟨1⟩ ⟨[], 5⟩ =
        (.error "Weight must be a positive number", ⟨[], 5⟩) := by
  have h90 : pyRound2 90 = 90 := by
    have h := pyRound2_natCast 90
    norm_num at h
    exact h
  have hw : validate_weight (-1) = .error "Weight must be a positive number" := by
    unfold validate_weight
    rw [if_pos (by norm_num)]
  have hg : validate_glucose 90 = .ok 90 := by
    rw [validate_glucose_pos 90 (by norm_num), h90]
  have he : validateRequest (-1) "120/80" 90 =
      .error "Weight must be a positive number" := by
    unfold validateRequest
    rw [hw, hg, show validate_blood_pressure "120/80" = .ok "120/80" from rfl]
  refine ⟨he, ?_⟩
  have h2 := (C9_field_checks_independent_and_no_insert_on_failure
    (-1) "120/80" 90 ⟨1⟩ ⟨[], 5⟩).2 _ he
  exact h2
